import Mathlib

/-!
Verification of the Deliberator backend (src/backend/main.py and
src/backend/matrixfactorization.py) against its natural-language
specification.  The Python source is shallowly embedded: SQL rows become
structures, database tables become lists inside a `DBState`, request
handlers become pure functions returning `Except String`, and the numeric
code of the matrix-factorization trainer is modelled over `Rat`.
-/

/-- Python `str.strip()` over the character list of a string: drop leading
and trailing whitespace. -/
def py_strip (s : String) : String :=
  String.mk (((s.data.dropWhile Char.isWhitespace).reverse.dropWhile
    Char.isWhitespace).reverse)

/-- Helper for `py_split`: accumulate the current field until the
separator character is hit. -/
def py_split_go (sep : Char) : List Char → List Char → List (List Char)
  | [], acc => [acc.reverse]
  | c :: rest, acc =>
    if c = sep then acc.reverse :: py_split_go sep rest []
    else py_split_go sep rest (c :: acc)

/-- Python `str.split(sep)` for a one-character separator: splits into
fields, keeping empty fields (so `"panel_".split("_") = ["panel", ""]`). -/
def py_split (s : String) (sep : Char) : List String :=
  (py_split_go sep s.data []).map String.mk

/-- Helper for `py_int?`: fold decimal digits, failing on a non-digit. -/
def py_int_go : List Char → Nat → Option Nat
  | [], acc => some acc
  | c :: rest, acc =>
    if c.isDigit then py_int_go rest (acc * 10 + (c.toNat - '0'.toNat))
    else none

/-- Python `int(str)` on the strings this code ever parses: an optional
leading minus sign followed by decimal digits; `none` models the
`ValueError` Python raises otherwise. -/
def py_int? (s : String) : Option Int :=
  match s.data with
  | [] => none
  | '-' :: rest =>
    if rest = [] then none
    else (py_int_go rest 0).map (fun n => -(n : Int))
  | cs => (py_int_go cs 0).map (fun n => (n : Int))

/-- Process-wide column count, `num_columns = 3` (main.py line 13). -/
def num_columns : Nat := 3

/-- A row of the `arguments` table (main.py lines 69-78). -/
structure Argument where
  argument_id : Nat
  argument : String
  author : String
  column_index : Int
  position_in_column : Int
deriving Repr, DecidableEq

/-- A row of the `critiques` table (main.py lines 81-93), the fields the
embedded handlers touch. -/
structure Critique where
  critique_id : Nat
  argument_id : Nat
  text : String
  start_ind : Int
  end_ind : Int
  author : String
deriving Repr, DecidableEq

/-- A stored rating as `add_rating` writes it (main.py lines 517-526):
keyed by `(statement_id, author)`, holding the two 1-7 scores and a
creation timestamp (modelled as integer seconds). -/
structure StoredRating where
  statement_id : String
  author : String
  quality_rating : Int
  agreement_rating : Int
  created_at : Int
deriving Repr, DecidableEq

/-- The mutable database state the embedded handlers act on.
`next_statement_id` models the `statements` SERIAL sequence. -/
structure DBState where
  arguments : List Argument
  critiques : List Critique
  ratings : List StoredRating
  next_statement_id : Nat
deriving Repr, DecidableEq

/-- One row of the aggregate query at the top of `recalculate_positions`
(main.py lines 225-237): an argument together with the average quality of
the ratings referring to it (`NULL`, i.e. `none`, when it has none),
ordered by `argument_id`. -/
structure RatedArgument where
  argument_id : Nat
  avg_quality : Option Rat
deriving Repr, DecidableEq

/-- A `(argument_id, column_index, position_in_column)` triple as upserted
into `argument_positions` by `recalculate_positions` (main.py lines 248-256). -/
structure PositionAssignment where
  argument_id : Nat
  column_index : Int
  position_in_column : Int
deriving Repr, DecidableEq

/-- `recalculate_positions` (main.py lines 217-258): for the i-th argument
(in `argument_id` order) it assigns `column = i % 3` and
`position = i // 3`, using the local `num_columns = 3` of line 241.  The
fetched average ratings are never consulted. -/
def recalculate_positions (args : List RatedArgument) : List PositionAssignment :=
  args.enum.map (fun p =>
    { argument_id := p.2.argument_id
      column_index := (p.1 : Int) % 3
      position_in_column := (p.1 : Int) / 3 })

/-- `add_argument` (main.py lines 410-443): reject a blank author, place
the new argument in the last column (`num_columns - 1`), at one past the
maximum existing position in that column (`COALESCE(MAX(...), -1) + 1`),
and allocate a fresh statement id. -/
def add_argument (s : DBState) (argument author : String) : Except String DBState :=
  if py_strip author = "" then .error "Author is required"
  else
    let target_column : Int := (num_columns : Int) - 1
    let positions := (s.arguments.filter (fun a => a.column_index = target_column)).map
      (fun a => a.position_in_column)
    let max_position : Int := match positions.max? with
      | some m => m
      | none => -1
    let next_position := max_position + 1
    let statement_id := s.next_statement_id
    .ok { s with
      arguments := s.arguments ++
        [{ argument_id := statement_id
           argument := argument
           author := py_strip author
           column_index := target_column
           position_in_column := next_position }]
      next_statement_id := statement_id + 1 }

/-- Python `str.startswith(pre)`. -/
def py_startswith (s pre : String) : Bool :=
  pre.data.isPrefixOf s.data

/-- Average quality shown to `recalculate_positions` for one argument: the
mean `quality_rating` of the ratings whose `statement_id` is
`panel_<argument_id>` (main.py lines 230-234), `none` when there are none
(SQL `AVG` of an empty group). -/
def avg_quality (ratings : List StoredRating) (aid : Nat) : Option Rat :=
  let rs := ratings.filter (fun r => r.statement_id == "panel_" ++ toString aid)
  if rs.length = 0 then none
  else some ((rs.map (fun r => (r.quality_rating : Rat))).sum / (rs.length : Rat))

/-- Insertion step for `sort_by_id`. -/
def insert_by_id (a : RatedArgument) : List RatedArgument → List RatedArgument
  | [] => [a]
  | b :: bs =>
    if a.argument_id ≤ b.argument_id then a :: b :: bs
    else b :: insert_by_id a bs

/-- `ORDER BY a.argument_id` of the aggregate query (main.py line 236). -/
def sort_by_id : List RatedArgument → List RatedArgument
  | [] => []
  | a :: rest => insert_by_id a (sort_by_id rest)

/-- The rows the aggregate query at the top of `recalculate_positions`
produces from the database state: one `RatedArgument` per argument,
ordered by `argument_id`. -/
def rated_arguments (s : DBState) : List RatedArgument :=
  sort_by_id (s.arguments.map
    (fun a => { argument_id := a.argument_id
                avg_quality := avg_quality s.ratings a.argument_id }))

/-- Write-back of the position assignments: each argument mentioned in the
assignment list takes the assigned column and position.  (The Python
upserts into an `argument_positions` table that `init_database` never
creates — that defect is recorded with C1; the model applies the intended
effect of the upserts.) -/
def apply_positions (args : List Argument) (ps : List PositionAssignment) : List Argument :=
  args.map (fun a =>
    match ps.find? (fun p => p.argument_id == a.argument_id) with
    | some p => { a with column_index := p.column_index
                         position_in_column := p.position_in_column }
    | none => a)

/-- One full recompute applied to the database state: run
`recalculate_positions` over the aggregate rows and write the assignments
back. -/
def apply_recalculation (s : DBState) : DBState :=
  { s with arguments :=
      apply_positions s.arguments (recalculate_positions (rated_arguments s)) }

/-- `check_and_trigger_repositioning` (main.py lines 260-278): count the
ratings created within the last hour (3600 seconds before `now`); if
there are at least 5 of them, run the recompute and report `true`,
otherwise do nothing and report `false`. -/
def check_and_trigger_repositioning (now : Int) (s : DBState) : Bool × DBState :=
  if 5 ≤ (s.ratings.filter (fun r => now - 3600 < r.created_at)).length then
    (true, apply_recalculation s)
  else
    (false, s)

/-- Payload of `POST /rating` (main.py lines 369-373). -/
structure NewRating where
  statement_id : String
  quality_rating : Int
  agreement_rating : Int
  author : String
deriving Repr, DecidableEq

/-- The upsert semantics of the `INSERT ... ON CONFLICT ... DO UPDATE` in
`add_rating` (main.py lines 517-526), keyed on `(statement_id, author)` as
the statement is written: overwrite the existing row for the pair if one
exists, append a new row otherwise.  (The SQL itself names a column the
`ratings` DDL does not define — that mismatch is recorded with C2; this is
the statement's intended effect.) -/
def upsert_rating (now : Int) (rs : List StoredRating) (sid author : String)
    (q agr : Int) : List StoredRating :=
  if rs.any (fun r => r.statement_id == sid && r.author == author) then
    rs.map (fun r =>
      if r.statement_id == sid && r.author == author then
        { r with quality_rating := q, agreement_rating := agr, created_at := now }
      else r)
  else
    rs ++ [{ statement_id := sid, author := author, quality_rating := q
             agreement_rating := agr, created_at := now }]

/-- The tail of `add_rating` after all validation passed (main.py lines
515-536): store the rating, then run the repositioning check and return
the new state together with the `repositioned` flag. -/
def add_rating_store (now : Int) (s : DBState) (nr : NewRating) : DBState × Bool :=
  let rs := upsert_rating now s.ratings nr.statement_id (py_strip nr.author)
    nr.quality_rating nr.agreement_rating
  let rb := check_and_trigger_repositioning now { s with ratings := rs }
  (rb.2, rb.1)

/-- `add_rating` (main.py lines 478-536): validate the two scores against
the range 1..7, the author against blankness, and the statement id against
the `panel_<id>[_critique_<k>]` format and existence, in that order; then
upsert the rating and run the repositioning check.  Each
`HTTPException(400, d)` becomes `.error d`; the `ValueError`/`IndexError`
handler of lines 510-511 becomes the `none` branches of the parses. -/
def add_rating (now : Int) (s : DBState) (nr : NewRating) :
    Except String (DBState × Bool) :=
  if ¬(1 ≤ nr.quality_rating ∧ nr.quality_rating ≤ 7) ∨
      ¬(1 ≤ nr.agreement_rating ∧ nr.agreement_rating ≤ 7) then
    .error "Ratings must be between 1 and 7"
  else if py_strip nr.author = "" then
    .error "Author is required"
  else if py_startswith nr.statement_id "panel_" = false then
    .error "Invalid statement ID format"
  else
    let parts := py_split nr.statement_id '_'
    match (parts.get? 1).bind py_int? with
    | none => .error "Invalid statement ID format"
    | some argument_id =>
      if (s.arguments.find? (fun a => (a.argument_id : Int) == argument_id)).isNone then
        .error "Panel does not exist"
      else if parts.length > 2 ∧ parts.get? 2 = some "critique" then
        match (parts.get? 3).bind py_int? with
        | none => .error "Invalid statement ID format"
        | some critique_index =>
          let critique_count :=
            (s.critiques.filter (fun c => (c.argument_id : Int) == argument_id)).length
          if (critique_count : Int) ≤ critique_index then
            .error "Critique does not exist"
          else
            .ok (add_rating_store now s nr)
      else
        .ok (add_rating_store now s nr)

/-- C1: `recalculate_positions` on four arguments whose average qualities
are 1, 5, 5, 7 (in creation order).  Arguments 1 and 4 both land in column
0, and the quality-7 argument 4 receives the strictly larger position 1,
below the quality-1 argument 1 at position 0: the assignment is a pure
round-robin over creation order and ignores quality, contradicting the
claim that within each column the higher-quality argument always gets the
strictly lower position. -/
theorem recalculate_positions_ignores_quality :
    (List.map (fun a => a.avg_quality)
        [⟨1, some 1⟩, ⟨2, some 5⟩, ⟨3, some 5⟩, (⟨4, some 7⟩ : RatedArgument)]
      = [some 1, some 5, some 5, some 7]) ∧
    (List.map (fun p => (p.argument_id, p.column_index, p.position_in_column))
        ((recalculate_positions
            [⟨1, some 1⟩, ⟨2, some 5⟩, ⟨3, some 5⟩, ⟨4, some 7⟩]).filter
          (fun p => p.column_index = 0))
      = [(1, 0, 0), (4, 0, 1)]) := by
  constructor <;> rfl

/-- C4: every column index assigned by the system is within
`[0, num_columns)`: `recalculate_positions` assigns `i % 3`, and
`add_argument` places every argument it adds in column `num_columns - 1`. -/
theorem assigned_columns_in_range :
    (∀ (args : List RatedArgument), ∀ pa ∈ recalculate_positions args,
        0 ≤ pa.column_index ∧ pa.column_index < (num_columns : Int)) ∧
    (∀ (s : DBState) (txt auth : String) (s' : DBState),
        add_argument s txt auth = .ok s' →
        ∀ a ∈ s'.arguments, a ∈ s.arguments ∨
          (0 ≤ a.column_index ∧ a.column_index < (num_columns : Int))) := by
  constructor
  · intro args pa hpa
    rcases List.mem_map.mp hpa with ⟨p, _, hp⟩
    subst hp
    refine ⟨Int.emod_nonneg _ (by norm_num), ?_⟩
    have h3 : ((num_columns : Nat) : Int) = 3 := by norm_num [num_columns]
    rw [h3]
    exact Int.emod_lt_of_pos _ (by norm_num)
  · intro s txt auth s' hok a ha
    unfold add_argument at hok
    split at hok
    · cases hok
    · simp only [Except.ok.injEq] at hok
      subst hok
      simp only [List.mem_append, List.mem_singleton] at ha
      rcases ha with ha | ha
      · exact Or.inl ha
      · subst ha
        exact Or.inr (by norm_num [num_columns])

/-- Witness for C4 at concrete inputs: the assignment for the fourth
argument produced by a recompute, and the argument added to an empty
database, both carry in-range columns. -/
theorem assigned_columns_in_range_witness :
    (0 ≤ (⟨4, 0, 1⟩ : PositionAssignment).column_index ∧
      (⟨4, 0, 1⟩ : PositionAssignment).column_index < (num_columns : Int)) ∧
    ((⟨1, "t", "bob", 2, 0⟩ : Argument) ∈ (⟨[], [], [], 1⟩ : DBState).arguments ∨
      (0 ≤ (⟨1, "t", "bob", 2, 0⟩ : Argument).column_index ∧
        (⟨1, "t", "bob", 2, 0⟩ : Argument).column_index < (num_columns : Int))) :=
  ⟨assigned_columns_in_range.1
      [⟨1, none⟩, ⟨2, none⟩, ⟨3, none⟩, ⟨4, none⟩] ⟨4, 0, 1⟩ (by decide),
    assigned_columns_in_range.2 ⟨[], [], [], 1⟩ "t" "bob"
      ⟨[⟨1, "t", "bob", 2, 0⟩], [], [], 2⟩ (by rfl)
      ⟨1, "t", "bob", 2, 0⟩ (by decide)⟩

/-- Column list of the `ratings` table created by `init_database`
(main.py lines 96-106). -/
def ratings_table_columns : List String :=
  ["rating_id", "ratee_id", "author", "quality_rating", "agreement_rating",
    "created_at"]

/-- The unique column sets declared on the `ratings` table: the primary
key and `UNIQUE(ratee_id, author)` (main.py lines 98 and 104). -/
def ratings_unique_constraints : List (List String) :=
  [["rating_id"], ["ratee_id", "author"]]

/-- The columns named by the INSERT statement of `add_rating`
(main.py line 518). -/
def add_rating_insert_columns : List String :=
  ["statement_id", "author", "quality_rating", "agreement_rating"]

/-- The conflict target of the `ON CONFLICT` clause of `add_rating`
(main.py line 520). -/
def add_rating_conflict_target : List String :=
  ["statement_id", "author"]

/-- C2 (code defect): the upsert of `add_rating` inserts into a column
`statement_id` that the `ratings` table does not have (its DDL names the
column `ratee_id`), and its conflict target `(statement_id, author)`
matches no unique constraint of the table; the statement therefore errors
at runtime instead of upserting, so the last-write-wins behaviour the
claim describes can never be exercised. -/
theorem add_rating_upsert_schema_mismatch :
    "statement_id" ∈ add_rating_insert_columns ∧
    "statement_id" ∉ ratings_table_columns ∧
    add_rating_conflict_target ∉ ratings_unique_constraints := by
  decide

/-- C3: `add_rating` checks the two scores against 1..7 before touching
anything: a submission with either score outside the range is answered
with the range error (and, the validation being the first step, no rating
is stored), while scores at the boundary values 1 and 7 never produce the
range error — whatever happens later, it is not a crash of this check. -/
theorem add_rating_range_check (now : Int) (s : DBState) (nr : NewRating) :
    (¬(1 ≤ nr.quality_rating ∧ nr.quality_rating ≤ 7 ∧
        1 ≤ nr.agreement_rating ∧ nr.agreement_rating ≤ 7) →
      add_rating now s nr = .error "Ratings must be between 1 and 7") ∧
    ((nr.quality_rating = 1 ∨ nr.quality_rating = 7) →
      (nr.agreement_rating = 1 ∨ nr.agreement_rating = 7) →
      add_rating now s nr ≠ .error "Ratings must be between 1 and 7") := by
  constructor
  · intro h
    unfold add_rating
    rw [if_pos (by tauto)]
  · intro hq ha
    unfold add_rating
    rw [if_neg (by rcases hq with h | h <;> rcases ha with h' | h' <;> simp [h, h'])]
    repeat' first | split | dsimp only
    all_goals intro hcontra
    all_goals first
      | exact Except.noConfusion hcontra
      | exact absurd (Except.error.inj hcontra) (by decide)

/-- Witness for C3: on an empty database, a quality score of 9 is refused
with the range error, and the boundary pair (7, 1) is not. -/
theorem add_rating_range_check_witness :
    add_rating 0 ⟨[], [], [], 1⟩ ⟨"panel_1", 9, 5, "al"⟩ =
      .error "Ratings must be between 1 and 7" ∧
    add_rating 0 ⟨[], [], [], 1⟩ ⟨"panel_1", 7, 1, "al"⟩ ≠
      .error "Ratings must be between 1 and 7" :=
  ⟨(add_rating_range_check 0 ⟨[], [], [], 1⟩ ⟨"panel_1", 9, 5, "al"⟩).1 (by decide),
    (add_rating_range_check 0 ⟨[], [], [], 1⟩ ⟨"panel_1", 7, 1, "al"⟩).2
      (Or.inr rfl) (Or.inl rfl)⟩

/-- C5: when the rating set is empty, the repositioning check counts zero
recent ratings, so the trigger threshold of 5 is not met: no recompute
runs, the state — in particular every argument's column and position — is
returned unchanged, and the caller receives the ordinary `false` flag, not
an error. -/
theorem empty_ratings_skip_recompute (now : Int) (s : DBState)
    (h : s.ratings = []) :
    check_and_trigger_repositioning now s = (false, s) := by
  simp [check_and_trigger_repositioning, h]

/-- Witness for C5 at a concrete state with one argument and no ratings. -/
theorem empty_ratings_skip_recompute_witness :
    check_and_trigger_repositioning 0 ⟨[⟨1, "a", "b", 0, 0⟩], [], [], 2⟩ =
      (false, ⟨[⟨1, "a", "b", 0, 0⟩], [], [], 2⟩) :=
  empty_ratings_skip_recompute 0 ⟨[⟨1, "a", "b", 0, 0⟩], [], [], 2⟩ rfl

/-- Payload of `POST /critique` (main.py lines 362-367). -/
structure NewCritique where
  argument_id : Int
  critique_text : String
  start_ind : Int
  end_ind : Int
  author : String
deriving Repr, DecidableEq

/-- `add_critique` (main.py lines 445-476): reject a blank author, look up
the parent argument (`Invalid panel ID` when absent), validate the span
against the parent text (`start_ind < 0 or end_ind > len(argument) or
start_ind >= end_ind` is rejected), then store the critique under a fresh
statement id. -/
def add_critique (s : DBState) (nc : NewCritique) : Except String DBState :=
  if py_strip nc.author = "" then .error "Author is required"
  else
    match s.arguments.find? (fun a => (a.argument_id : Int) == nc.argument_id) with
    | none => .error "Invalid panel ID"
    | some panel =>
      if nc.start_ind < 0 ∨ nc.end_ind > (panel.argument.length : Int) ∨
          nc.start_ind ≥ nc.end_ind then
        .error "Invalid text indices"
      else
        .ok { s with
          critiques := s.critiques ++
            [{ critique_id := s.next_statement_id
               argument_id := panel.argument_id
               text := nc.critique_text
               start_ind := nc.start_ind
               end_ind := nc.end_ind
               author := py_strip nc.author }]
          next_statement_id := s.next_statement_id + 1 }

/-- C8 counterexample: a critique on the existing argument 1 with the
valid span [0, 1) over the five-character parent text is still rejected
when its author is blank, so existence of the parent plus validity of the
span is not sufficient for success as the claim states. -/
theorem add_critique_rejects_blank_author :
    ((⟨1, "hello", "bob", 0, 0⟩ : Argument) ∈
        (⟨[⟨1, "hello", "bob", 0, 0⟩], [], [], 2⟩ : DBState).arguments ∧
      ((⟨1, "hello", "bob", 0, 0⟩ : Argument).argument_id : Int) = 1 ∧
      (0 : Int) ≤ 0 ∧ (0 : Int) < 1 ∧
      (1 : Int) ≤ (("hello" : String).length : Int)) ∧
    add_critique ⟨[⟨1, "hello", "bob", 0, 0⟩], [], [], 2⟩ ⟨1, "c", 0, 1, ""⟩ =
      .error "Author is required" := by
  constructor
  · refine ⟨by decide, by decide, by decide, by decide, by decide⟩
  · rfl

/-- C8 amended: provided argument ids are unique (the `argument_id`
PRIMARY KEY), `add_critique` succeeds exactly when the stripped author is
non-blank, the parent argument exists, and the span satisfies
`0 ≤ start_ind < end_ind ≤ len(parent text)`; in every other case it
returns an error and, validation preceding every insertion, stores
nothing. -/
theorem add_critique_ok_iff (s : DBState) (nc : NewCritique)
    (hids : (s.arguments.map (fun a => a.argument_id)).Nodup) :
    (add_critique s nc).isOk = true ↔
      py_strip nc.author ≠ "" ∧
      ∃ a, a ∈ s.arguments ∧ (a.argument_id : Int) = nc.argument_id ∧
        0 ≤ nc.start_ind ∧ nc.start_ind < nc.end_ind ∧
        nc.end_ind ≤ (a.argument.length : Int) := by
  unfold add_critique
  by_cases hauth : py_strip nc.author = ""
  · simp [hauth, Except.isOk, Except.toBool]
  · rw [if_neg hauth]
    cases hfind : s.arguments.find? (fun a => (a.argument_id : Int) == nc.argument_id) with
    | none =>
      rw [List.find?_eq_none] at hfind
      simp only [Except.isOk, Except.toBool]
      constructor
      · intro h; cases h
      · rintro ⟨-, a, ham, haid, -⟩
        exact absurd (by simpa using haid) (by simpa using hfind a ham)
    | some panel =>
      have hpm : panel ∈ s.arguments := List.mem_of_find?_eq_some hfind
      have hpid : (panel.argument_id : Int) = nc.argument_id := by
        simpa using List.find?_some hfind
      dsimp only
      by_cases hspan : nc.start_ind < 0 ∨ nc.end_ind > (panel.argument.length : Int) ∨
          nc.start_ind ≥ nc.end_ind
      · rw [if_pos hspan]
        simp only [Except.isOk, Except.toBool]
        constructor
        · intro h; cases h
        · rintro ⟨-, a, ham, haid, h0, hlt, hle⟩
          have : a = panel := by
            refine List.inj_on_of_nodup_map hids ham hpm ?_
            exact Nat.cast_injective (haid.trans hpid.symm)
          subst this
          rcases hspan with h | h | h
          · omega
          · omega
          · omega
      · rw [if_neg hspan]
        push_neg at hspan
        simp only [Except.isOk, Except.toBool, true_iff]
        exact ⟨hauth, panel, hpm, hpid, hspan.1, hspan.2.2, hspan.2.1⟩

/-- Witness for C8 at a concrete input: a well-formed critique by "al" on
argument 1 succeeds, and the success is equivalent to the stated
conditions. -/
theorem add_critique_ok_iff_witness :
    (add_critique ⟨[⟨1, "hello", "bob", 0, 0⟩], [], [], 2⟩
        ⟨1, "c", 0, 1, "al"⟩).isOk = true ↔
      py_strip "al" ≠ "" ∧
      ∃ a, a ∈ (⟨[⟨1, "hello", "bob", 0, 0⟩], [], [], 2⟩ : DBState).arguments ∧
        (a.argument_id : Int) = 1 ∧ (0 : Int) ≤ 0 ∧ (0 : Int) < 1 ∧
        (1 : Int) ≤ (a.argument.length : Int) :=
  add_critique_ok_iff ⟨[⟨1, "hello", "bob", 0, 0⟩], [], [], 2⟩
    ⟨1, "c", 0, 1, "al"⟩ (by decide)

/-- The learned parameters of a `MatrixFactorization` module
(matrixfactorization.py lines 14-48): per-user and per-statement factor
vectors of length `n_factors`, per-user and per-statement scalar
intercepts, and the global intercept (floats modelled as rationals). -/
structure MFModel where
  user_factors : Nat → List Rat
  statement_factors : Nat → List Rat
  user_intercepts : Nat → Rat
  statement_intercepts : Nat → Rat
  global_intercept : Rat

/-- The dot product `(user_embedding * statement_embedding).sum(dim=-1)`
of `forward` (matrixfactorization.py line 60). -/
def dot_product (xs ys : List Rat) : Rat :=
  (List.zipWith (fun a b => a * b) xs ys).sum

/-- `MatrixFactorization.forward` (matrixfactorization.py lines 50-61) for
one (user, statement) pair: global intercept plus the two per-entity
intercepts plus the factor dot product. -/
def MFModel.forward (m : MFModel) (u s : Nat) : Rat :=
  m.global_intercept + m.user_intercepts u + m.statement_intercepts s +
    dot_product (m.user_factors u) (m.statement_factors s)

/-- C6: with the dimensionality fixed at 1 (`n_factors=1`, so both factor
vectors are singletons), the prediction for (u, s) is exactly
`global_intercept + user_intercept[u] + statement_intercept[s] +
user_factor[u] * statement_factor[s]`. -/
theorem forward_scalar_formula (m : MFModel) (u s : Nat) (x y : Rat)
    (hu : m.user_factors u = [x]) (hs : m.statement_factors s = [y]) :
    m.forward u s = m.global_intercept + m.user_intercepts u +
      m.statement_intercepts s + x * y := by
  simp [MFModel.forward, dot_product, hu, hs]

/-- A concrete scalar-factor model for the C6 witness. -/
def mf_example : MFModel where
  user_factors := fun _ => [2]
  statement_factors := fun _ => [5]
  user_intercepts := fun _ => 3
  statement_intercepts := fun _ => 4
  global_intercept := 1

/-- Witness for C6 at the concrete model `mf_example`. -/
theorem forward_scalar_formula_witness :
    mf_example.forward 0 1 = mf_example.global_intercept +
      mf_example.user_intercepts 0 + mf_example.statement_intercepts 1 + 2 * 5 :=
  forward_scalar_formula mf_example 0 1 2 5 rfl rfl

/-- Arithmetic mean of a list of rationals (`tensor.mean()`). -/
def rat_mean (xs : List Rat) : Rat :=
  xs.sum / (xs.length : Rat)

/-- `nn.MSELoss` (matrixfactorization.py line 47) on parallel prediction
and label vectors. -/
def mse_loss (predictions labels : List Rat) : Rat :=
  rat_mean (List.zipWith (fun p y => (p - y) ^ 2) predictions labels)

/-- The weight tensors of the model at some training epoch: four embedding
matrices given as lists of rows (`n × n_factors` for the factors,
`n × 1` for the intercepts) plus the global intercept. -/
structure MFWeights where
  user_factors : List (List Rat)
  statement_factors : List (List Rat)
  user_intercepts : List (List Rat)
  statement_intercepts : List (List Rat)
  global_intercept : Rat
deriving Repr, DecidableEq

/-- `(weight**2).mean()`: the mean of the squares of all entries of a
weight matrix. -/
def tensor_sq_mean (m : List (List Rat)) : Rat :=
  rat_mean (m.flatten.map (fun x => x ^ 2))

/-- The loss computed in each iteration of the training loop of
`train_matrix_factorization` (matrixfactorization.py lines 100-114):
`error_loss + factor_reg + intercept_reg`, where each regularizer is the
strength times the SUM of the two per-matrix means of squared entries.
The value never depends on `include_user_intercept`: line 30 only freezes
the user-intercept parameter against gradient updates, while the term of
lines 108-112 is computed unconditionally. -/
def epoch_total_loss (reg_factors reg_intercepts : Rat) (w : MFWeights)
    (predictions labels : List Rat) : Rat :=
  let error_loss := mse_loss predictions labels
  let factor_reg := reg_factors *
    (tensor_sq_mean w.user_factors + tensor_sq_mean w.statement_factors)
  let intercept_reg := reg_intercepts *
    (tensor_sq_mean w.user_intercepts + tensor_sq_mean w.statement_intercepts)
  error_loss + factor_reg + intercept_reg

/-- The loss as the specification words it: each regularizer is the
strength times ONE pooled mean over all squared factors (respectively all
squared intercepts) of both sides together. -/
def spec_total_loss (reg_factors reg_intercepts : Rat) (w : MFWeights)
    (predictions labels : List Rat) : Rat :=
  mse_loss predictions labels +
    reg_factors *
      rat_mean ((w.user_factors ++ w.statement_factors).flatten.map (fun x => x ^ 2)) +
    reg_intercepts *
      rat_mean ((w.user_intercepts ++ w.statement_intercepts).flatten.map (fun x => x ^ 2))

/-- C7 counterexample: with one user factor 1 and three statement factors
1 and both regularization strengths 1, the loss the code computes is 2
(sum of the two per-matrix means) while the pooled-mean formula of the
claim gives 1, so the claimed loss expression does not match the code. -/
theorem epoch_loss_differs_from_pooled_mean :
    epoch_total_loss 1 1 ⟨[[1]], [[1], [1], [1]], [[0]], [[0]], 0⟩ [1] [1] = 2 ∧
    spec_total_loss 1 1 ⟨[[1]], [[1], [1], [1]], [[0]], [[0]], 0⟩ [1] [1] = 1 := by
  constructor <;>
    norm_num [epoch_total_loss, spec_total_loss, mse_loss, tensor_sq_mean, rat_mean]

/-- Helper: flattening a matrix whose rows are singletons gives back the
underlying list. -/
theorem flatten_map_singleton (l : List Rat) :
    (l.map (fun x => [x])).flatten = l := by
  induction l with
  | nil => rfl
  | cons x xs ih => simp [ih]

/-- C7 amended: at every epoch, for the scalar configuration the system
uses (`n_factors = 1`, intercept matrices `n × 1`), the loss equals
`mse(predictions, labels) + factor_reg * (mean of squared user factors +
mean of squared statement factors) + intercept_reg * (mean of squared user
intercepts + mean of squared statement intercepts)`; the user-intercept
term stays in the loss value even when `learn_user_intercept` is false —
that flag only freezes the parameter against gradient updates. -/
theorem epoch_total_loss_formula (rf ri : Rat) (uf sf ui si : List Rat)
    (gi : Rat) (predictions labels : List Rat) :
    epoch_total_loss rf ri
        ⟨uf.map (fun x => [x]), sf.map (fun x => [x]),
          ui.map (fun x => [x]), si.map (fun x => [x]), gi⟩
        predictions labels =
      mse_loss predictions labels +
        rf * (rat_mean (uf.map (fun x => x ^ 2)) +
          rat_mean (sf.map (fun x => x ^ 2))) +
        ri * (rat_mean (ui.map (fun x => x ^ 2)) +
          rat_mean (si.map (fun x => x ^ 2))) := by
  simp [epoch_total_loss, tensor_sq_mean, flatten_map_singleton]

/-- Maximum of a list of natural numbers, 0 on the empty list
(`np.max` on the index arrays, which are never negative). -/
def list_max : List Nat → Nat
  | [] => 0
  | x :: xs => Nat.max x (list_max xs)

/-- Lines 78-81 of `train_matrix_factorization`: an omitted bound
(`n_users=None` or `n_statements=None`) is replaced by
`np.max(indexes) + 1`; `np.max` raises on an empty sequence, modelled by
`none`. -/
def resolve_bound (explicit : Option Nat) (indexes : List Nat) : Option Nat :=
  match explicit with
  | some n => some n
  | none =>
    match indexes with
    | [] => none
    | _ => some (list_max indexes + 1)

/-- Every element of a list is at most its `list_max`. -/
theorem le_list_max (l : List Nat) : ∀ x ∈ l, x ≤ list_max l := by
  induction l with
  | nil => intro x hx; cases hx
  | cons a rest ih =>
    intro x hx
    rcases List.mem_cons.mp hx with h | h
    · subst h; exact Nat.le_max_left _ _
    · exact Nat.le_trans (ih x h) (Nat.le_max_right _ _)

/-- C10: when the bounds are omitted and the index sequences are
non-empty, `train_matrix_factorization` derives each bound as one plus the
maximum index of the corresponding sequence, so every index used during
training is strictly below its bound and no embedding lookup can be out of
range. -/
theorem inferred_bounds_cover_indexes (user_indexes statement_indexes : List Nat)
    (hu : user_indexes ≠ []) (hs : statement_indexes ≠ []) :
    ∃ n_users n_statements,
      resolve_bound none user_indexes = some n_users ∧
      resolve_bound none statement_indexes = some n_statements ∧
      (∀ u ∈ user_indexes, u < n_users) ∧
      (∀ st ∈ statement_indexes, st < n_statements) := by
  refine ⟨list_max user_indexes + 1, list_max statement_indexes + 1, ?_, ?_, ?_, ?_⟩
  · cases user_indexes with
    | nil => exact absurd rfl hu
    | cons a rest => rfl
  · cases statement_indexes with
    | nil => exact absurd rfl hs
    | cons a rest => rfl
  · intro u hmem; exact Nat.lt_succ_of_le (le_list_max _ u hmem)
  · intro st hmem; exact Nat.lt_succ_of_le (le_list_max _ st hmem)

/-- Witness for C10 at concrete index sequences. -/
theorem inferred_bounds_cover_indexes_witness :
    ∃ n_users n_statements,
      resolve_bound none [0, 2, 1] = some n_users ∧
      resolve_bound none [5] = some n_statements ∧
      (∀ u ∈ [0, 2, 1], u < n_users) ∧
      (∀ st ∈ [5], st < n_statements) :=
  inferred_bounds_cover_indexes [0, 2, 1] [5] (by decide) (by decide)
